import Mathlib

/-!
Verification of the real-time chat / presence / call-signaling relay of the
Decentralized Time Bank repository.

The embedding translates the socket.io backend (source file part_000) and the
frontend room-identifier helper createRoomId (source file part_002) into pure
Lean definitions:

* JS strings are Lean strings; String.prototype.toLowerCase is modelled at the
  character level (toLowerStr) because the source only ever handles ASCII
  addresses, and the default Array.prototype.sort comparator (lexicographic by
  code unit) is modelled by lexLe on character lists.
* JS Map objects (chatRoomsCache, onlineUsers, typingUsers, the socket.io
  room adapter and the per-socket data records) are modelled as functions
  String to Option value; JS Set objects are duplicate-free lists with
  insertion-order add (setAdd) and delete (setRemove).
* The MongoDB chatMessages collection is an append-only list of records
  wrapped in Option Store (none models a missing connection, the failing
  flag models a store that throws; both are caught in the source and turned
  into a logged, non-fatal result).  The find-sort-by-timestamp query of
  loadChatFromDB is modelled by a structural insertion sort on timestamps.
* Each socket.io event handler becomes a function from the server state and
  the inbound payload to an Outcome: the new state, the list of emitted
  events (with their delivery target) and the list of warning / error logs.
  Informational console logs, the setTimeout re-broadcast of the join
  handler and the actual network delivery are timing behaviour outside the
  state transition and are not part of the Outcome.
* Timestamps (Date.now, toISOString values and the stored Date objects) are
  modelled by the natural number of the underlying instant, supplied to each
  handler as an explicit parameter, as is the random id suffix.
-/

namespace TimeBank

/-- Character-level model of the JS toLowerCase call used throughout the
source (addresses are ASCII, where Char.toLower agrees with JS). -/
def toLowerStr (s : String) : String := ⟨s.data.map Char.toLower⟩

/-- Lexicographic comparison of character lists, the order used by the JS
default Array.prototype.sort comparator on strings. -/
def lexLe : List Char → List Char → Bool
  | [], _ => true
  | _ :: _, [] => false
  | a :: as, b :: bs => if a < b then true else if b < a then false else lexLe as bs

/-- String comparison as performed by the JS default sort comparator. -/
def jsStrLe (a b : String) : Bool := lexLe a.data b.data

/-- Room identifier derivation, from createRoomId in part_002 lines 460-463:
the two addresses are lowercased, the two-element array is sorted with the
default comparator, and the halves are joined with an underscore. -/
def createRoomId (address1 address2 : String) : String :=
  let a := toLowerStr address1
  let b := toLowerStr address2
  if jsStrLe a b then a ++ "_" ++ b else b ++ "_" ++ a

/-- Modelled from the spec wording, for the refinement conjunct of claim C1:
the two participant identifiers lowercased, sorted, and joined with the
separator underscore. -/
def roomIdSpec (a b : String) : String :=
  match List.insertionSort (fun u v => jsStrLe u v = true) [toLowerStr a, toLowerStr b] with
  | [x, y] => x ++ "_" ++ y
  | _ => ""

theorem lexLe_total : ∀ xs ys : List Char, lexLe xs ys = true ∨ lexLe ys xs = true := by
  intro xs
  induction xs with
  | nil => intro ys; exact Or.inl rfl
  | cons a as ih =>
    intro ys
    cases ys with
    | nil => exact Or.inr rfl
    | cons b bs =>
      by_cases hab : a < b
      · exact Or.inl (by simp [lexLe, hab])
      · by_cases hba : b < a
        · exact Or.inr (by simp [lexLe, hba, asymm hba])
        · rcases ih bs with h | h
          · exact Or.inl (by simp [lexLe, hab, hba, h])
          · exact Or.inr (by simp [lexLe, hab, hba, h])

theorem lexLe_antisymm : ∀ xs ys : List Char,
    lexLe xs ys = true → lexLe ys xs = true → xs = ys := by
  intro xs
  induction xs with
  | nil =>
    intro ys _ h2
    cases ys with
    | nil => rfl
    | cons b bs => simp [lexLe] at h2
  | cons a as ih =>
    intro ys h1 h2
    cases ys with
    | nil => simp [lexLe] at h1
    | cons b bs =>
      by_cases hab : a < b
      · exfalso
        have : lexLe (b :: bs) (a :: as) = false := by simp [lexLe, hab, asymm hab]
        rw [this] at h2
        exact Bool.false_ne_true h2
      · by_cases hba : b < a
        · exfalso
          have : lexLe (a :: as) (b :: bs) = false := by simp [lexLe, hab, hba]
          rw [this] at h1
          exact Bool.false_ne_true h1
        · have hAB : a = b := le_antisymm (le_of_not_lt hba) (le_of_not_lt hab)
          have h1t : lexLe as bs = true := by
            have := h1
            simpa [lexLe, hab, hba] using this
          have h2t : lexLe bs as = true := by
            have := h2
            simpa [lexLe, hAB] using this
          rw [hAB, ih bs h1t h2t]

theorem jsStrLe_antisymm (a b : String) (h1 : jsStrLe a b = true) (h2 : jsStrLe b a = true) :
    a = b := by
  cases a with
  | mk da =>
    cases b with
    | mk db =>
      have : da = db := lexLe_antisymm da db h1 h2
      rw [this]

/-- C1: for every pair of user identifier strings, createRoomId is symmetric,
its result depends only on the lowercased inputs (so it is unchanged when
either input changes letter case), and it equals the two identifiers
lowercased, sorted, and joined with an underscore (roomIdSpec). -/
theorem C1_createRoomId_comm_caseFree_sorted :
    ∀ a b : String,
      createRoomId a b = createRoomId b a ∧
      (∀ a2 b2 : String, toLowerStr a2 = toLowerStr a → toLowerStr b2 = toLowerStr b →
        createRoomId a2 b2 = createRoomId a b) ∧
      createRoomId a b = roomIdSpec a b := by
  intro a b
  refine ⟨?_, ?_, ?_⟩
  · unfold createRoomId
    by_cases h1 : jsStrLe (toLowerStr a) (toLowerStr b) = true
    · by_cases h2 : jsStrLe (toLowerStr b) (toLowerStr a) = true
      · simp only [h1, h2, if_true]
        rw [jsStrLe_antisymm _ _ h1 h2]
      · simp [h1, h2]
    · have h2 : jsStrLe (toLowerStr b) (toLowerStr a) = true := by
        rcases lexLe_total (toLowerStr a).data (toLowerStr b).data with h | h
        · exact absurd h h1
        · exact h
      simp [h1, h2]
  · intro a2 b2 ha hb
    unfold createRoomId
    rw [ha, hb]
  · unfold createRoomId roomIdSpec
    by_cases h : jsStrLe (toLowerStr a) (toLowerStr b) = true
    · simp [List.insertionSort, List.orderedInsert, h]
    · simp [List.insertionSort, List.orderedInsert, h]

/-- Witness for C1 at concrete inputs of mixed letter case. -/
theorem C1_witness :
    toLowerStr "Alice" = toLowerStr "ALICE" ∧ toLowerStr "BOB" = toLowerStr "bob" ∧
    createRoomId "Alice" "BOB" = createRoomId "ALICE" "bob" :=
  ⟨by decide, by decide,
    (C1_createRoomId_comm_caseFree_sorted "ALICE" "bob").2.1 "Alice" "BOB"
      (by decide) (by decide)⟩

/-- JS falsy test applied by the handlers to an optional string field of an
inbound payload (a missing field or the empty string is falsy). -/
def falsy : Option String → Bool
  | none => true
  | some s => s.data.isEmpty

/-- Character-level model of the JS split call roomId.split with separator
underscore (a one-character separator in the source). -/
def splitOnChar (c : Char) : List Char → List (List Char)
  | [] => [[]]
  | a :: as =>
    if a = c then [] :: splitOnChar c as
    else
      match splitOnChar c as with
      | [] => [[a]]
      | g :: gs => (a :: g) :: gs

def jsSplitUnderscore (s : String) : List String :=
  (splitOnChar '_' s.data).map (fun l => String.mk l)

/-- Message object as built by the handlers (part_000 lines 584-590 and
635-642); the optional duration field is present only on call artifacts. -/
structure ChatMsg where
  id : String
  message : String
  sender : String
  timestamp : Nat
  type : String
  duration : Option Nat
deriving DecidableEq

/-- Record of the chatMessages collection: the message object spread together
with its roomId key (part_000 lines 331-335). -/
structure StoredMsg where
  roomId : String
  msg : ChatMsg
deriving DecidableEq

/-- Durable store: the list of inserted records plus a flag modelling a store
whose calls throw (both failure modes are caught and logged in the source). -/
structure Store where
  recs : List StoredMsg
  failing : Bool
deriving DecidableEq

/-- Entry of the onlineUsers map (part_000 line 320). -/
structure UserInfo where
  socketIds : List String
  lastSeen : Nat
deriving DecidableEq

/-- Per-socket data record socket.data (userAddress and roomId fields as
assigned by the join-room handler, part_000 lines 452-453). -/
structure SocketData where
  userAddress : Option String
  roomId : Option String
deriving DecidableEq

/-- In-memory server state: the three module-level maps of part_000 lines
319-321, the socket.io room adapter and socket records, and the store. -/
structure ServerState where
  chatRoomsCache : String → Option (List ChatMsg)
  onlineUsers : String → Option UserInfo
  typingUsers : String → Option (List String)
  rooms : String → Option (List String)
  socketData : String → Option SocketData
  store : Option Store

/-- Delivery target of an emitted event: one socket (socket.emit), a whole
room (io.to(roomId).emit) or a room minus the sender (socket.to(roomId)). -/
inductive Target where
  | sock (socketId : String)
  | room (roomId : String)
  | roomExcept (roomId socketId : String)
deriving DecidableEq

/-- Outbound payloads produced by the handlers. -/
inductive Payload where
  | userStatus (userAddress status : String)
  | chatHistory (messages : List ChatMsg)
  | chatMessage (msg : ChatMsg)
  | typing (userAddress : String) (isTyping : Bool)
  | videoCallStatus (status sender roomId : String)
deriving DecidableEq

structure Event where
  target : Target
  payload : Payload
deriving DecidableEq

/-- Result of running one handler: the successor state, the emitted events in
order, and the warning or error logs. -/
structure Outcome where
  state : ServerState
  events : List Event
  logs : List String

/-- JS Map.prototype.set. -/
def mapSet {α : Type} (m : String → Option α) (k : String) (v : α) : String → Option α :=
  fun x => if x = k then some v else m x

/-- JS Map.prototype.delete. -/
def mapDelete {α : Type} (m : String → Option α) (k : String) : String → Option α :=
  fun x => if x = k then none else m x

/-- JS Set.prototype.add (no duplicate, insertion order kept). -/
def setAdd (s : List String) (x : String) : List String :=
  if x ∈ s then s else s ++ [x]

/-- JS Set.prototype.delete. -/
def setRemove (s : List String) (x : String) : List String :=
  s.filter (fun y => decide (¬ y = x))

/-- saveChatMessageToDB (part_000 lines 324-341): with no connection it warns
and reports failure; a throwing insert is caught, logged and reported as
failure; otherwise the record is appended.  Failure never propagates. -/
def saveChatMessageToDB (store : Option Store) (roomId : String) (messageObj : ChatMsg) :
    Option Store × Bool × List String :=
  match store with
  | none => (none, false, ["[Chat] MongoDB not connected, message not persisted"])
  | some s =>
    if s.failing then
      (some s, false, ["[Chat] Failed to save message to MongoDB"])
    else
      (some { s with recs := s.recs ++ [{ roomId := roomId, msg := messageObj }] }, true, [])

/-- Timestamp order on messages, the sort key of the find query. -/
def tsLe (a b : ChatMsg) : Prop := a.timestamp ≤ b.timestamp

instance : DecidableRel tsLe := fun a b => Nat.decLe a.timestamp b.timestamp

instance : IsTotal ChatMsg tsLe := ⟨fun a b => Nat.le_total a.timestamp b.timestamp⟩

instance : IsTrans ChatMsg tsLe := ⟨fun _ _ _ => Nat.le_trans⟩

/-- loadChatFromDB (part_000 lines 344-364): with no connection it returns the
empty list; a throwing query is caught, logged and yields the empty list;
otherwise the records of the room sorted by timestamp (the Mongo
find-sort query is modelled by a structural insertion sort). -/
def loadChatFromDB (store : Option Store) (roomId : String) : List ChatMsg :=
  match store with
  | none => []
  | some s =>
    if s.failing then []
    else
      List.insertionSort tsLe
        ((s.recs.filter (fun r => decide (r.roomId = roomId))).map (fun r => r.msg))

/-- Inbound chat-message payload (part_000 line 564); every field of the
dynamic object may be missing. -/
structure ChatData where
  roomId : Option String
  message : Option String
  sender : Option String
  timestamp : Option Nat
  type : Option String
deriving DecidableEq

/-- Message object built by the chat-message handler (part_000 lines 584-590):
id is Date.now() plus a random suffix, the sender is lowercased, a missing
timestamp defaults to now, a missing type to text. -/
def mkChatMsg (data : ChatData) (now : Nat) (randomSuffix : String) : ChatMsg :=
  { id := Nat.repr now ++ randomSuffix
    message := data.message.getD ""
    sender := toLowerStr (data.sender.getD "")
    timestamp := data.timestamp.getD now
    type := data.type.getD "text"
    duration := none }

/-- chat-message handler (part_000 lines 563-619). -/
def chatMessage (st : ServerState) (data : ChatData) (now : Nat) (randomSuffix : String) :
    Outcome :=
  if falsy data.roomId || falsy data.sender || falsy data.message then
    { state := st, events := [], logs := ["[Chat] Invalid message data"] }
  else
    let roomId := data.roomId.getD ""
    let normalizedSender := toLowerStr (data.sender.getD "")
    let typingPack : (String → Option (List String)) × List Event :=
      match st.typingUsers roomId with
      | some s =>
        (mapSet st.typingUsers roomId (setRemove s normalizedSender),
         [{ target := Target.room roomId, payload := Payload.typing normalizedSender false }])
      | none => (st.typingUsers, [])
    let cache0 :=
      match st.chatRoomsCache roomId with
      | some _ => st.chatRoomsCache
      | none => mapSet st.chatRoomsCache roomId []
    let messageObj := mkChatMsg data now randomSuffix
    let cache1 := mapSet cache0 roomId ((cache0 roomId).getD [] ++ [messageObj])
    let userCount := ((st.rooms roomId).getD []).length
    let emptyLogs :=
      if userCount = 0 then ["[Chat] WARNING: room has no connected users"] else []
    let savePack := saveChatMessageToDB st.store roomId messageObj
    { state := { st with typingUsers := typingPack.1
                         chatRoomsCache := cache1
                         store := savePack.1 }
      events := typingPack.2 ++
        [{ target := Target.room roomId, payload := Payload.chatMessage messageObj }]
      logs := emptyLogs ++ savePack.2.2 }

/-- join-room handler (part_000 lines 444-539); the setTimeout re-broadcast is
timing behaviour and is not part of the synchronous transition. -/
def joinRoom (st : ServerState) (socketId : String) (rid ua : Option String) (now : Nat) :
    Outcome :=
  if falsy rid || falsy ua then
    { state := st, events := [], logs := ["[Chat] Invalid join-room request"] }
  else
    let roomId := rid.getD ""
    let normalizedAddress := toLowerStr (ua.getD "")
    let rooms1 := mapSet st.rooms roomId (setAdd ((st.rooms roomId).getD []) socketId)
    let socketData1 := mapSet st.socketData socketId
      { userAddress := some normalizedAddress, roomId := some roomId }
    let info := (st.onlineUsers normalizedAddress).getD { socketIds := [], lastSeen := now }
    let online1 := mapSet st.onlineUsers normalizedAddress
      { socketIds := setAdd info.socketIds socketId, lastSeen := now }
    let dbMessages := loadChatFromDB st.store roomId
    let cache1 := mapSet st.chatRoomsCache roomId dbMessages
    let parts := jsSplitUnderscore roomId
    let user1 := parts.getD 0 ""
    let user2 := parts.getD 1 ""
    let statusEvents :=
      if user1 = "" ∨ user2 = "" then ([] : List Event)
      else
        let otherUser :=
          if toLowerStr user1 = normalizedAddress then toLowerStr user2 else toLowerStr user1
        let members := (rooms1 roomId).getD []
        let inRoom := members.any (fun sid =>
          match socketData1 sid with
          | some d => decide (d.userAddress = some otherUser)
          | none => false)
        let backup :=
          match online1 otherUser with
          | some i => decide (0 < i.socketIds.length)
          | none => false
        [{ target := Target.sock socketId,
           payload := Payload.userStatus otherUser
             (if inRoom || backup then "online" else "offline") }]
    { state := { st with rooms := rooms1
                         socketData := socketData1
                         onlineUsers := online1
                         chatRoomsCache := cache1 }
      events :=
        { target := Target.room roomId,
          payload := Payload.userStatus normalizedAddress "online" } ::
        { target := Target.sock socketId, payload := Payload.chatHistory dbMessages } ::
        statusEvents
      logs := [] }

/-- Inbound typing payload (part_000 lines 542-560). -/
structure TypingData where
  roomId : String
  userAddress : String
deriving DecidableEq

/-- typing-start handler (part_000 lines 542-549). -/
def typingStart (st : ServerState) (socketId : String) (data : TypingData) : Outcome :=
  let s0 := (st.typingUsers data.roomId).getD []
  { state := { st with typingUsers := mapSet st.typingUsers data.roomId (setAdd s0 data.userAddress) }
    events := [{ target := Target.roomExcept data.roomId socketId,
                 payload := Payload.typing data.userAddress true }]
    logs := [] }

/-- typing-stop handler (part_000 lines 551-560): the user is removed and an
emptied entry is discarded; the typing false event is emitted either way. -/
def typingStop (st : ServerState) (socketId : String) (data : TypingData) : Outcome :=
  let typing1 :=
    match st.typingUsers data.roomId with
    | some s =>
      let s1 := setRemove s data.userAddress
      if s1.length = 0 then mapDelete st.typingUsers data.roomId
      else mapSet st.typingUsers data.roomId s1
    | none => st.typingUsers
  { state := { st with typingUsers := typing1 }
    events := [{ target := Target.roomExcept data.roomId socketId,
                 payload := Payload.typing data.userAddress false }]
    logs := [] }

/-- Inbound video-call-ended payload (part_000 line 623); the handler performs
no validation on it. -/
structure VideoEndData where
  roomId : String
  duration : Nat
  sender : String
deriving DecidableEq

/-- Duration display text (part_000 lines 629-633). -/
def durationText (duration : Nat) : String :=
  let minutes := duration / 60
  let seconds := duration % 60
  if minutes > 0 then Nat.repr minutes ++ "m " ++ Nat.repr seconds ++ "s"
  else Nat.repr seconds ++ "s"

/-- Call artifact built by the video-call-ended handler (part_000 lines
635-642); it does not use the sender field of the inbound payload. -/
def videoCallEndedMsg (duration : Nat) (now : Nat) : ChatMsg :=
  { id := Nat.repr now
    message := "Video call ended - Duration: " ++ durationText duration
    sender := "system"
    timestamp := now
    type := "video-call"
    duration := some duration }

/-- video-call-ended handler (part_000 lines 622-659). -/
def videoCallEnded (st : ServerState) (data : VideoEndData) (now : Nat) : Outcome :=
  let cache0 :=
    match st.chatRoomsCache data.roomId with
    | some _ => st.chatRoomsCache
    | none => mapSet st.chatRoomsCache data.roomId []
  let messageObj := videoCallEndedMsg data.duration now
  let cache1 := mapSet cache0 data.roomId ((cache0 data.roomId).getD [] ++ [messageObj])
  let savePack := saveChatMessageToDB st.store data.roomId messageObj
  { state := { st with chatRoomsCache := cache1, store := savePack.1 }
    events := [{ target := Target.room data.roomId, payload := Payload.chatMessage messageObj }]
    logs := savePack.2.2 }

/-- Inbound video-call-status payload (part_000 line 681). -/
structure CallStatusData where
  roomId : Option String
  status : Option String
  sender : Option String
deriving DecidableEq

/-- video-call-status handler (part_000 lines 680-703): after validation it is
a pure rebroadcast of status, lowercased sender and roomId to the room; it
never touches the cache, the store or any map. -/
def videoCallStatus (st : ServerState) (data : CallStatusData) : Outcome :=
  if falsy data.roomId || falsy data.status || falsy data.sender then
    { state := st, events := [], logs := ["[VideoCall] Invalid video-call-status data"] }
  else
    let roomId := data.roomId.getD ""
    let status := data.status.getD ""
    let normalizedSender := toLowerStr (data.sender.getD "")
    let userCount := ((st.rooms roomId).getD []).length
    let emptyLogs :=
      if userCount = 0 then ["[VideoCall] WARNING: room has no connected users"] else []
    { state := st
      events := [{ target := Target.room roomId,
                   payload := Payload.videoCallStatus status normalizedSender roomId }]
      logs := emptyLogs }

/-- Online test as performed by the source at part_000 lines 506 and 714: the
user has an onlineUsers entry whose socket set is non-empty. -/
def isOnline (st : ServerState) (u : String) : Bool :=
  match st.onlineUsers u with
  | some info => decide (0 < info.socketIds.length)
  | none => false

/-- disconnect handler (part_000 lines 706-738); socket.data is read from the
state.  The transport removes the socket from every room before the
disconnect event fires (socket.io empties socket.rooms beforehand — the
separate disconnecting event exists to observe the room set pre-cleanup),
so the loop over socket.rooms at part_000 line 721 iterates an empty set
and emits nothing; socketRooms below models that already-emptied set.
Hence, when the removed socket was the last one of the user, exactly one
offline transition goes out, to the room recorded in socket.data.roomId
(the room of the most recent join, if any); rooms joined earlier on the
connection are not notified.  Afterwards the user is dropped from the
typing set of the recorded room, without discarding an emptied entry. -/
def disconnect (st : ServerState) (socketId : String) : Outcome :=
  let sd := (st.socketData socketId).getD { userAddress := none, roomId := none }
  let socketRooms : List String := []
  let offlinePack : (String → Option UserInfo) × List Event :=
    match sd.userAddress with
    | none => (st.onlineUsers, [])
    | some u =>
      match st.onlineUsers u with
      | none => (st.onlineUsers, [])
      | some info =>
        let ids1 := setRemove info.socketIds socketId
        let online1 := mapSet st.onlineUsers u { info with socketIds := ids1 }
        let evs :=
          if ids1.length = 0 then
            (match sd.roomId with
             | some r => [{ target := Target.room r, payload := Payload.userStatus u "offline" }]
             | none => []) ++
            (socketRooms.filter (fun r => decide (¬ r = socketId))).map
              (fun r => { target := Target.room r, payload := Payload.userStatus u "offline" })
          else []
        (online1, evs)
  let typingPack : (String → Option (List String)) × List Event :=
    match sd.roomId with
    | none => (st.typingUsers, [])
    | some r =>
      match st.typingUsers r with
      | none => (st.typingUsers, [])
      | some s =>
        match sd.userAddress with
        | none => (st.typingUsers, [])
        | some u =>
          (mapSet st.typingUsers r (setRemove s u),
           [{ target := Target.room r, payload := Payload.typing u false }])
  { state := { st with onlineUsers := offlinePack.1, typingUsers := typingPack.1 }
    events := offlinePack.2 ++ typingPack.2
    logs := [] }

/-- Empty server state with no store connection, used by concrete witnesses. -/
def st0 : ServerState :=
  { chatRoomsCache := fun _ => none
    onlineUsers := fun _ => none
    typingUsers := fun _ => none
    rooms := fun _ => none
    socketData := fun _ => none
    store := none }

/-- State reached from the empty state after the single connection s1 of
user a joins room a_b and then room a_c: the adapter still lists s1 as a
member of both rooms, but socket.data.roomId records only the last join.
Used by the C3 counterexample and witness. -/
def st3 : ServerState :=
  (joinRoom (joinRoom st0 "s1" (some "a_b") (some "a") 0).state
    "s1" (some "a_c") (some "a") 1).state

/-- State in which user a is the only user typing in room a_b, used by the C7
counterexample and witness. -/
def st7 : ServerState :=
  { chatRoomsCache := fun _ => none
    onlineUsers := fun _ => none
    typingUsers := fun r => if r = "a_b" then some ["a"] else none
    rooms := fun _ => none
    socketData := fun _ => none
    store := none }

/-- C2: for every inbound chat-message event in which roomId, sender or
message is missing or empty, the handler rejects it locally: no event is
emitted (no fan-out), and the whole server state, the store included, is
exactly as before (so no persistence is attempted either). -/
theorem C2_chatMessage_invalid_rejected :
    ∀ (st : ServerState) (data : ChatData) (now : Nat) (randomSuffix : String),
      (falsy data.roomId || falsy data.sender || falsy data.message) = true →
      (chatMessage st data now randomSuffix).state = st ∧
      (chatMessage st data now randomSuffix).events = [] := by
  intro st data now randomSuffix h
  unfold chatMessage
  rw [if_pos h]
  exact ⟨rfl, rfl⟩

/-- Witness for C2: a chat-message event with missing roomId at a concrete
state leaves the state untouched and emits nothing. -/
theorem C2_witness :
    (falsy (ChatData.roomId
        { roomId := none, message := some "hi", sender := some "a",
          timestamp := none, type := none }) ||
      falsy (ChatData.sender
        { roomId := none, message := some "hi", sender := some "a",
          timestamp := none, type := none }) ||
      falsy (ChatData.message
        { roomId := none, message := some "hi", sender := some "a",
          timestamp := none, type := none })) = true ∧
    (chatMessage st0
      { roomId := none, message := some "hi", sender := some "a",
        timestamp := none, type := none } 0 "x").state = st0 ∧
    (chatMessage st0
      { roomId := none, message := some "hi", sender := some "a",
        timestamp := none, type := none } 0 "x").events = [] :=
  ⟨by decide,
    (C2_chatMessage_invalid_rejected st0
      { roomId := none, message := some "hi", sender := some "a",
        timestamp := none, type := none } 0 "x" (by decide)).1,
    (C2_chatMessage_invalid_rejected st0
      { roomId := none, message := some "hi", sender := some "a",
        timestamp := none, type := none } 0 "x" (by decide)).2⟩

/-- C9: for every join-room event in which roomId or userAddress is missing
or empty, the handler returns before any effect: the state (room
membership, presence registry, message cache) is unchanged and no event is
emitted to any connection. -/
theorem C9_joinRoom_invalid_noop :
    ∀ (st : ServerState) (socketId : String) (rid ua : Option String) (now : Nat),
      (falsy rid || falsy ua) = true →
      (joinRoom st socketId rid ua now).state = st ∧
      (joinRoom st socketId rid ua now).events = [] := by
  intro st socketId rid ua now h
  unfold joinRoom
  rw [if_pos h]
  exact ⟨rfl, rfl⟩

/-- Witness for C9: a join-room event with an empty userAddress at a concrete
state leaves the state untouched and emits nothing. -/
theorem C9_witness :
    (falsy (some "a_b") || falsy (some "")) = true ∧
    (joinRoom st0 "s1" (some "a_b") (some "") 0).state = st0 ∧
    (joinRoom st0 "s1" (some "a_b") (some "") 0).events = [] :=
  ⟨by decide,
    (C9_joinRoom_invalid_noop st0 "s1" (some "a_b") (some "") 0 (by decide)).1,
    (C9_joinRoom_invalid_noop st0 "s1" (some "a_b") (some "") 0 (by decide)).2⟩

/-- C10: for every video-call-ended event the recorded ChatMessage has sender
equal to the literal string system and type equal to video-call, and the
broadcast artifact is videoCallEndedMsg, which is built from the duration
and the clock only — the sender field carried by the inbound event is never
attributed on it (the equations hold for every data, whatever its sender). -/
theorem C10_call_artifact_sender_system :
    ∀ (st : ServerState) (data : VideoEndData) (now : Nat),
      (videoCallEndedMsg data.duration now).sender = "system" ∧
      (videoCallEndedMsg data.duration now).type = "video-call" ∧
      (videoCallEnded st data now).events =
        [{ target := Target.room data.roomId,
           payload := Payload.chatMessage (videoCallEndedMsg data.duration now) }] := by
  intro st data now
  exact ⟨rfl, rfl, rfl⟩

/-- C8: for every video-call-ended event with duration d, the recorded
artifact text is the prefix followed by minutes and m and seconds and s
when the minute count is positive, and by seconds and s otherwise; for
d = 125 it equals the expected literal. -/
theorem C8_duration_text :
    ∀ (st : ServerState) (data : VideoEndData) (now : Nat),
      ({ target := Target.room data.roomId,
         payload := Payload.chatMessage (videoCallEndedMsg data.duration now) } : Event) ∈
          (videoCallEnded st data now).events ∧
      (videoCallEndedMsg data.duration now).message =
        (if data.duration / 60 > 0 then
          "Video call ended - Duration: " ++ Nat.repr (data.duration / 60) ++ "m " ++
            Nat.repr (data.duration % 60) ++ "s"
         else "Video call ended - Duration: " ++ Nat.repr (data.duration % 60) ++ "s") ∧
      (data.duration = 125 →
        (videoCallEndedMsg data.duration now).message =
          "Video call ended - Duration: 2m 5s") := by
  intro st data now
  refine ⟨?_, ?_, ?_⟩
  · exact List.mem_singleton.mpr rfl
  · show ("Video call ended - Duration: " ++ durationText data.duration) = _
    unfold durationText
    by_cases h : data.duration / 60 > 0
    · simp only [h, if_true, if_pos h, String.append_assoc]
    · simp only [h, if_false, if_neg h, String.append_assoc]
  · intro h
    rw [h]
    show ("Video call ended - Duration: " ++ durationText 125) = _
    decide

/-- Witness for C8 at duration 125. -/
theorem C8_witness :
    VideoEndData.duration { roomId := "a_b", duration := 125, sender := "a" } = 125 ∧
    (videoCallEndedMsg
      (VideoEndData.duration { roomId := "a_b", duration := 125, sender := "a" }) 7).message =
      "Video call ended - Duration: 2m 5s" :=
  ⟨rfl, (C8_duration_text st0 { roomId := "a_b", duration := 125, sender := "a" } 7).2.2 rfl⟩

/-- C4: the history sequence loaded from durable storage (and delivered as
chat-history to the joining connection) is non-decreasing by timestamp for
every store content, hence regardless of insertion order. -/
theorem C4_history_sorted_by_timestamp :
    (∀ (store : Option Store) (roomId : String),
        List.Sorted tsLe (loadChatFromDB store roomId)) ∧
    (∀ (st : ServerState) (socketId : String) (rid ua : Option String) (now : Nat),
        falsy rid = false → falsy ua = false →
        ({ target := Target.sock socketId,
           payload := Payload.chatHistory (loadChatFromDB st.store (rid.getD "")) } : Event) ∈
          (joinRoom st socketId rid ua now).events) := by
  constructor
  · intro store roomId
    unfold loadChatFromDB
    cases store with
    | none => exact List.sorted_nil
    | some s =>
      by_cases h : s.failing = true
      · simp only [h, if_true]
        exact List.sorted_nil
      · simp only [h, if_false]
        exact List.sorted_insertionSort tsLe _
  · intro st socketId rid ua now h1 h2
    unfold joinRoom
    simp only [h1, h2, Bool.or_self, Bool.false_or, if_false]
    exact List.mem_cons_of_mem _ (List.mem_cons_self _ _)

/-- Witness for C4: a join with valid arguments at a concrete state receives
the chat-history event carrying the loaded sequence. -/
theorem C4_witness :
    falsy (some "a_b") = false ∧ falsy (some "A") = false ∧
    ({ target := Target.sock "s1",
       payload := Payload.chatHistory (loadChatFromDB st0.store ((some "a_b").getD "")) } : Event) ∈
      (joinRoom st0 "s1" (some "a_b") (some "A") 0).events :=
  ⟨by decide, by decide,
    C4_history_sorted_by_timestamp.2 st0 "s1" (some "a_b") (some "A") 0 (by decide) (by decide)⟩

/-- C5: a failure of the durable-store append never suppresses or rolls back
delivery: for every valid chat-message event the broadcast to the room is
among the emitted events whatever the store state, and the failure is
observably logged (both for a missing connection and for a throwing
insert); likewise a join with the store missing or throwing still succeeds
and delivers an empty chat-history sequence to the joining connection. -/
theorem C5_store_failure_never_suppresses_delivery :
    (∀ (st : ServerState) (data : ChatData) (now : Nat) (randomSuffix : String),
        (falsy data.roomId || falsy data.sender || falsy data.message) = false →
        ({ target := Target.room (data.roomId.getD ""),
           payload := Payload.chatMessage (mkChatMsg data now randomSuffix) } : Event) ∈
            (chatMessage st data now randomSuffix).events ∧
        (st.store = none →
          "[Chat] MongoDB not connected, message not persisted" ∈
            (chatMessage st data now randomSuffix).logs) ∧
        (∀ s : Store, st.store = some s → s.failing = true →
          "[Chat] Failed to save message to MongoDB" ∈
            (chatMessage st data now randomSuffix).logs)) ∧
    (∀ (st : ServerState) (socketId : String) (rid ua : Option String) (now : Nat),
        falsy rid = false → falsy ua = false →
        (st.store = none ∨ ∃ s : Store, st.store = some s ∧ s.failing = true) →
        ({ target := Target.sock socketId, payload := Payload.chatHistory [] } : Event) ∈
          (joinRoom st socketId rid ua now).events) := by
  constructor
  · intro st data now randomSuffix h
    refine ⟨?_, ?_, ?_⟩
    · cases hty : st.typingUsers (data.roomId.getD "") <;>
        simp [chatMessage, h, hty]
    · intro hstore
      simp [chatMessage, h, hstore, saveChatMessageToDB]
    · intro s hstore hfail
      simp [chatMessage, h, hstore, saveChatMessageToDB, hfail]
  · intro st socketId rid ua now h1 h2 hstore
    unfold joinRoom
    simp only [h1, h2, Bool.or_self, Bool.false_or, if_false]
    have hload : loadChatFromDB st.store (rid.getD "") = [] := by
      rcases hstore with h | ⟨s, hs, hf⟩
      · rw [h]; rfl
      · rw [hs]; unfold loadChatFromDB; simp [hf]
    rw [hload]
    exact List.mem_cons_of_mem _ (List.mem_cons_self _ _)

/-- Witness for C5: with no store connection, a valid chat-message is still
broadcast and the degraded persistence is logged, and a valid join receives
the empty history. -/
theorem C5_witness :
    (falsy (some "a_b") || falsy (some "A") || falsy (some "hi")) = false ∧
    st0.store = none ∧
    ({ target := Target.room ((some "a_b").getD ""),
       payload := Payload.chatMessage
         (mkChatMsg
           { roomId := some "a_b", message := some "hi", sender := some "A",
             timestamp := none, type := none } 0 "x") } : Event) ∈
      (chatMessage st0
        { roomId := some "a_b", message := some "hi", sender := some "A",
          timestamp := none, type := none } 0 "x").events ∧
    "[Chat] MongoDB not connected, message not persisted" ∈
      (chatMessage st0
        { roomId := some "a_b", message := some "hi", sender := some "A",
          timestamp := none, type := none } 0 "x").logs ∧
    ({ target := Target.sock "s1", payload := Payload.chatHistory [] } : Event) ∈
      (joinRoom st0 "s1" (some "a_b") (some "A") 0).events :=
  ⟨by decide, rfl,
    (C5_store_failure_never_suppresses_delivery.1 st0
      { roomId := some "a_b", message := some "hi", sender := some "A",
        timestamp := none, type := none } 0 "x" (by decide)).1,
    (C5_store_failure_never_suppresses_delivery.1 st0
      { roomId := some "a_b", message := some "hi", sender := some "A",
        timestamp := none, type := none } 0 "x" (by decide)).2.1 rfl,
    C5_store_failure_never_suppresses_delivery.2 st0 "s1" (some "a_b") (some "A") 0
      (by decide) (by decide) (Or.inl rfl)⟩

/-- The invariant claimed for the typing-state map: an entry exists only if
its set of typing users is non-empty. -/
def TypingInv (st : ServerState) : Prop :=
  ∀ r s, st.typingUsers r = some s → s ≠ []

theorem setAdd_ne_nil (s : List String) (x : String) : setAdd s x ≠ [] := by
  intro hnil
  unfold setAdd at hnil
  by_cases hmem : x ∈ s
  · rw [if_pos hmem] at hnil
    rw [hnil] at hmem
    exact List.not_mem_nil x hmem
  · rw [if_neg hmem] at hnil
    exact List.append_ne_nil_of_right_ne_nil s (by simp) hnil

/-- Counterexample to C7: in the state st7 user a is the only user typing in
room a_b; a valid chat-message from a in that room empties the typing set
of a_b but the entry is kept (part_000 line 576 deletes the user without
the emptied-entry cleanup that the typing-stop handler performs), so after
the operation the map holds an entry with an empty set, violating the
claimed invariant. -/
theorem C7_counterexample :
    (chatMessage st7
      { roomId := some "a_b", message := some "hi", sender := some "a",
        timestamp := none, type := none } 0 "x").state.typingUsers "a_b" = some [] := by
  decide

/-- C7 amended: the invariant is established and preserved by typing-start
and typing-stop (the latter discards an emptied entry), but the
chat-message handler only removes the sender from the typing set of the
room and keeps the entry even when the set becomes empty, and the
disconnect handler likewise only removes the user from the typing set of
its recorded room and keeps the (possibly emptied) entry. -/
theorem C7_typing_entry_invariant_amended :
    (∀ (st : ServerState) (socketId : String) (data : TypingData),
        TypingInv st → TypingInv (typingStart st socketId data).state) ∧
    (∀ (st : ServerState) (socketId : String) (data : TypingData),
        TypingInv st → TypingInv (typingStop st socketId data).state) ∧
    (∀ (st : ServerState) (data : ChatData) (now : Nat) (randomSuffix : String)
       (roomId sender : String) (s : List String),
        data.roomId = some roomId → data.sender = some sender →
        falsy data.roomId = false → falsy data.sender = false →
        falsy data.message = false →
        st.typingUsers roomId = some s →
        (chatMessage st data now randomSuffix).state.typingUsers roomId =
          some (setRemove s (toLowerStr sender))) ∧
    (∀ (st : ServerState) (socketId : String) (sd : SocketData)
       (r u : String) (s : List String),
        st.socketData socketId = some sd → sd.roomId = some r → sd.userAddress = some u →
        st.typingUsers r = some s →
        (disconnect st socketId).state.typingUsers r = some (setRemove s u)) := by
  refine ⟨?_, ?_, ?_, ?_⟩
  · intro st socketId data hinv r s hr
    simp only [typingStart] at hr
    unfold mapSet at hr
    by_cases hreq : r = data.roomId
    · rw [if_pos hreq] at hr
      injection hr with he
      rw [← he]
      exact setAdd_ne_nil _ _
    · rw [if_neg hreq] at hr
      exact hinv r s hr
  · intro st socketId data hinv r s hr
    simp only [typingStop] at hr
    cases hty : st.typingUsers data.roomId with
    | none =>
      rw [hty] at hr
      exact hinv r s hr
    | some s0 =>
      rw [hty] at hr
      dsimp only at hr
      by_cases hlen : (setRemove s0 data.userAddress).length = 0
      · rw [if_pos hlen] at hr
        unfold mapDelete at hr
        by_cases hreq : r = data.roomId
        · rw [if_pos hreq] at hr
          exact Option.noConfusion hr
        · rw [if_neg hreq] at hr
          exact hinv r s hr
      · rw [if_neg hlen] at hr
        unfold mapSet at hr
        by_cases hreq : r = data.roomId
        · rw [if_pos hreq] at hr
          injection hr with he
          intro hnil
          apply hlen
          rw [he, hnil]
          rfl
        · rw [if_neg hreq] at hr
          exact hinv r s hr
  · intro st data now randomSuffix roomId sender s hrid hsend h1 h2 h3 hty
    have hcond : (falsy data.roomId || falsy data.sender || falsy data.message) = false := by
      rw [h1, h2, h3]
      rfl
    simp only [chatMessage, hcond, Bool.false_eq_true, if_false]
    simp only [hrid, hsend, Option.getD_some]
    rw [hty]
    simp [mapSet]
  · intro st socketId sd r u s hsd hrm hua hty
    unfold disconnect
    rw [hsd]
    simp only [Option.getD_some]
    rw [hrm]
    dsimp only
    rw [hty]
    dsimp only
    rw [hua]
    dsimp only
    simp [mapSet]

/-- State like st7 but whose socket s1 carries user a and recorded room a_b
in its data record, used by the disconnect conjunct of the C7 witness. -/
def st7d : ServerState :=
  { chatRoomsCache := fun _ => none
    onlineUsers := fun _ => none
    typingUsers := fun r => if r = "a_b" then some ["a"] else none
    rooms := fun _ => none
    socketData := fun sid =>
      if sid = "s1" then some { userAddress := some "a", roomId := some "a_b" } else none
    store := none }

/-- Witness for C7 amended: the preservation conjuncts applied at the empty
state, the chat-message conjunct applied at st7, where it exhibits the
kept (and emptied) entry, and the disconnect conjunct applied at st7d. -/
theorem C7_witness :
    TypingInv st0 ∧
    TypingInv (typingStart st0 "s1" { roomId := "a_b", userAddress := "a" }).state ∧
    TypingInv (typingStop st0 "s1" { roomId := "a_b", userAddress := "a" }).state ∧
    st7.typingUsers "a_b" = some ["a"] ∧
    (chatMessage st7
      { roomId := some "a_b", message := some "hi", sender := some "a",
        timestamp := none, type := none } 0 "x").state.typingUsers "a_b" =
      some (setRemove ["a"] (toLowerStr "a")) ∧
    st7d.typingUsers "a_b" = some ["a"] ∧
    (disconnect st7d "s1").state.typingUsers "a_b" = some (setRemove ["a"] "a") := by
  have hinv : TypingInv st0 := by
    intro r s hr
    exact Option.noConfusion hr
  refine ⟨hinv, ?_, ?_, by decide, ?_, by decide, ?_⟩
  · exact C7_typing_entry_invariant_amended.1 st0 "s1" { roomId := "a_b", userAddress := "a" } hinv
  · exact C7_typing_entry_invariant_amended.2.1 st0 "s1" { roomId := "a_b", userAddress := "a" } hinv
  · exact C7_typing_entry_invariant_amended.2.2.1 st7
      { roomId := some "a_b", message := some "hi", sender := some "a",
        timestamp := none, type := none } 0 "x" "a_b" "a" ["a"]
      rfl rfl (by decide) (by decide) (by decide) (by decide)
  · exact C7_typing_entry_invariant_amended.2.2.2 st7d "s1"
      { userAddress := some "a", roomId := some "a_b" } "a_b" "a" ["a"]
      (by decide) rfl rfl (by decide)

/-- Counterexample to C6: a valid video-call-status event with status ended
records no ChatMessage at all — the handler leaves the whole state (the
message store and cache included) untouched and emits only the status
rebroadcast, contradicting the claim that a status of ended records a
call-event artifact appended to the room message store. -/
theorem C6_counterexample :
    (videoCallStatus st0
      { roomId := some "a_b", status := some "ended", sender := some "a" }).state = st0 ∧
    (videoCallStatus st0
      { roomId := some "a_b", status := some "ended", sender := some "a" }).events =
      [{ target := Target.room "a_b", payload := Payload.videoCallStatus "ended" "a" "a_b" }] :=
  ⟨rfl, by decide⟩

/-- C6 amended: only the duration-bearing video-call-ended event records the
call ChatMessage (the artifact of type video-call holding the duration,
appended to the room cache and, when the store is reachable, to the store);
the video-call-status handler, for status ended like for any status, is a
pure rebroadcast that modifies no state and records nothing. -/
theorem C6_call_artifact_amended :
    (∀ (st : ServerState) (data : VideoEndData) (now : Nat),
        (videoCallEnded st data now).events =
          [{ target := Target.room data.roomId,
             payload := Payload.chatMessage (videoCallEndedMsg data.duration now) }] ∧
        (videoCallEndedMsg data.duration now).type = "video-call" ∧
        (videoCallEndedMsg data.duration now).duration = some data.duration ∧
        (∀ s : Store, st.store = some s → s.failing = false →
          (videoCallEnded st data now).state.store =
            some { s with recs := s.recs ++
              [{ roomId := data.roomId, msg := videoCallEndedMsg data.duration now }] })) ∧
    (∀ (st : ServerState) (data : CallStatusData),
        (videoCallStatus st data).state = st) := by
  constructor
  · intro st data now
    refine ⟨rfl, rfl, rfl, ?_⟩
    intro s hs hfail
    simp only [videoCallEnded]
    rw [hs]
    unfold saveChatMessageToDB
    simp [hfail]
  · intro st data
    unfold videoCallStatus
    split
    · rfl
    · rfl

/-- Witness for C6 amended: the video-call-ended handler at a reachable,
non-failing store appends the artifact record to the store. -/
theorem C6_witness :
    ServerState.store
        { chatRoomsCache := fun _ => none
          onlineUsers := fun _ => none
          typingUsers := fun _ => none
          rooms := fun _ => none
          socketData := fun _ => none
          store := some { recs := [], failing := false } } =
      some { recs := [], failing := false } ∧
    Store.failing { recs := [], failing := false } = false ∧
    (videoCallEnded
      { chatRoomsCache := fun _ => none
        onlineUsers := fun _ => none
        typingUsers := fun _ => none
        rooms := fun _ => none
        socketData := fun _ => none
        store := some { recs := [], failing := false } }
      { roomId := "a_b", duration := 125, sender := "a" } 7).state.store =
      some { recs := [] ++ [{ roomId := "a_b", msg := videoCallEndedMsg 125 7 }], failing := false } :=
  ⟨rfl, rfl,
    (C6_call_artifact_amended.1
      { chatRoomsCache := fun _ => none
        onlineUsers := fun _ => none
        typingUsers := fun _ => none
        rooms := fun _ => none
        socketData := fun _ => none
        store := some { recs := [], failing := false } }
      { roomId := "a_b", duration := 125, sender := "a" } 7).2.2.2
      { recs := [], failing := false } rfl rfl⟩

/-- Offline transition event broadcast to a room. -/
def offlineEvent (r u : String) : Event :=
  { target := Target.room r, payload := Payload.userStatus u "offline" }

/-- Counterexample to C3: starting from the empty state, the single
connection s1 of user a joins room a_b and then room a_c, so the user is
a member of both rooms (st3.rooms still lists s1 in a_b) while
socket.data.roomId retains only the last join.  When that last connection
closes, the room-set loop of part_000 line 721 iterates the room set the
transport has already emptied, so only the recorded room a_c is notified:
room a_b, which the user belonged to, receives no offline transition at
all, refuting the claim that no room the user belonged to is skipped
(and hence that every such room receives exactly one transition). -/
theorem C3_counterexample :
    st3.rooms "a_b" = some ["s1"] ∧
    st3.onlineUsers "a" = some { socketIds := ["s1"], lastSeen := 1 } ∧
    List.count (offlineEvent "a_b" "a") (disconnect st3 "s1").events = 0 ∧
    List.count (offlineEvent "a_c" "a") (disconnect st3 "s1").events = 1 :=
  ⟨by decide, by decide, by decide, by decide⟩

/-- C3 amended: a user is reported online iff the set of live connection
handles recorded for the user is non-empty; and when the last connection
of a user closes, the disconnect handler emits exactly one offline
transition, to the room recorded in socket.data.roomId (the room of the
most recent join) when one is recorded, and none to any other room —
rooms the user joined earlier on that connection are skipped, because the
socket room set is already empty when the disconnect handler runs and the
loop over it emits nothing. -/
theorem C3_presence_offline_amended :
    (∀ (st : ServerState) (u : String),
        isOnline st u = true ↔ ∃ info, st.onlineUsers u = some info ∧ info.socketIds ≠ []) ∧
    (∀ (st : ServerState) (socketId : String) (sd : SocketData)
       (u : String) (info : UserInfo),
        st.socketData socketId = some sd → sd.userAddress = some u →
        st.onlineUsers u = some info → setRemove info.socketIds socketId = [] →
        ∀ R : String,
          List.count (offlineEvent R u) (disconnect st socketId).events =
            if sd.roomId = some R then 1 else 0) := by
  constructor
  · intro st u
    unfold isOnline
    cases h : st.onlineUsers u with
    | none => simp
    | some info => simp [List.length_pos]
  · intro st socketId sd u info hsd hua hou hempty R
    have hevents : (disconnect st socketId).events =
        (match sd.roomId with
          | some r => [offlineEvent r u]
          | none => []) ++
        (match sd.roomId with
          | none => []
          | some r =>
            match st.typingUsers r with
            | none => []
            | some _ => [{ target := Target.room r, payload := Payload.typing u false }]) := by
      unfold disconnect
      rw [hsd]
      simp only [Option.getD_some]
      rw [hua]
      dsimp only
      rw [hou]
      dsimp only
      rw [hempty]
      simp only [List.length_nil, if_pos rfl, List.filter_nil, List.map_nil,
        List.append_nil, offlineEvent]
      cases hrm : sd.roomId with
      | none => rfl
      | some r =>
        dsimp only
        cases hty2 : st.typingUsers r with
        | none => rfl
        | some s => rfl
    rw [hevents, List.count_append]
    have hfirst : List.count (offlineEvent R u)
        (match sd.roomId with
          | some r => [offlineEvent r u]
          | none => []) = if sd.roomId = some R then 1 else 0 := by
      cases hrm : sd.roomId with
      | none => simp
      | some r =>
        by_cases hrR : r = R
        · subst hrR
          simp
        · have h0 : List.count (offlineEvent R u) [offlineEvent r u] = 0 := by
            rw [List.count_eq_zero]
            simp [offlineEvent, Ne.symm hrR]
          rw [h0]
          simp [hrR]
    have htyping : List.count (offlineEvent R u)
        (match sd.roomId with
          | none => []
          | some r =>
            match st.typingUsers r with
            | none => []
            | some _ => [{ target := Target.room r, payload := Payload.typing u false }]) = 0 := by
      cases sd.roomId with
      | none => simp
      | some r =>
        dsimp only
        cases hty2 : st.typingUsers r with
        | none => simp
        | some s =>
          dsimp only
          rw [List.count_eq_zero]
          simp [offlineEvent]
    rw [hfirst, htyping, Nat.add_zero]

/-- Witness for C3 amended: the count formula applied at the concrete state
st3, where the recorded room a_c of the last join receives exactly one
offline transition on the disconnect of the last connection of user a. -/
theorem C3_witness :
    st3.socketData "s1" = some { userAddress := some "a", roomId := some "a_c" } ∧
    st3.onlineUsers "a" = some { socketIds := ["s1"], lastSeen := 1 } ∧
    setRemove (UserInfo.socketIds { socketIds := ["s1"], lastSeen := 1 }) "s1" = [] ∧
    List.count (offlineEvent "a_c" "a") (disconnect st3 "s1").events =
      (if (SocketData.roomId { userAddress := some "a", roomId := some "a_c" }) = some "a_c"
        then 1 else 0) :=
  ⟨by decide, by decide, by decide,
    C3_presence_offline_amended.2 st3 "s1"
      { userAddress := some "a", roomId := some "a_c" } "a"
      { socketIds := ["s1"], lastSeen := 1 }
      (by decide) (by decide) (by decide) (by decide) "a_c"⟩

end TimeBank
